import Mathlib

/-!
Verification development for the ring-coordination protocol of the
IoT-Cloud-Application repository. The definitions below are a shallow
embedding of the class TokenRingNode in src/polling/token-ring.py, the
mature ring-protocol file that the specification adopts as the core
(the legacy variant src/token-ring.py lacks reconnect and alone mode).
Network and database effects are modelled by explicit outcome oracles;
wall-clock sleeps and timestamps are irrelevant to the verified
properties and are not part of the state. Floating-point sensor
readings never influence control flow, so they are carried abstractly
as integer fields.
-/

/-- Sensor readings collected by collect_sensor_data. The numeric values
are opaque to the protocol, so the float fields are carried as integers. -/
structure SensorValues where
  temperature : Int
  humidity : Int
  soil_moisture : Int
  soil_temperature : Int
  wind_speed : Int
deriving DecidableEq

/-- One entry of a sensor_data payload: a dict with keys pi_id and
measurements, as built at token-ring.py line 188. -/
structure MeasurementRecord where
  pi_id : Nat
  measurements : SensorValues
deriving DecidableEq

/-- The JSON value carried in the data field of a wire message, as far as
handle_message distinguishes shapes: a list of records, a dict that has a
data key (holding a further JSON value), a dict without one, a string
(used by the shutdown announcements), or null (used by continue). -/
inductive JsonData where
  | null : JsonData
  | str (s : String) : JsonData
  | list (xs : List MeasurementRecord) : JsonData
  | dictData (inner : JsonData) : JsonData
  | dictOther : JsonData
deriving DecidableEq

/-- The wire message type and data, json.dumps of the dict built at
token-ring.py lines 326 and 341: the target id is not serialized. -/
structure WireMsg where
  msgType : String
  data : JsonData
deriving DecidableEq

/-- Extraction of the payload list in the sensor_data handler, lines
178-185: msg.get("data") is unwrapped once when it is a dict holding a
data key, and every non-list result is replaced by the empty list. -/
def extractData : JsonData → List MeasurementRecord
  | .list xs => xs
  | .dictData (.list xs) => xs
  | _ => []

/-- The mutable per-node state of TokenRingNode that the protocol reads
and writes: identity, the two forward addresses, the leadership belief
(plotter), the membership belief (numpis), the round counter, alone mode,
and whether the database handle is open (db_conn is not None). -/
structure NodeState where
  pi_id : Nat
  next_host : String
  next_port : Nat
  other_host : String
  other_port : Nat
  plotter : Nat
  numpis : Nat
  round : Nat
  is_alone : Bool
  db_conn : Bool
deriving DecidableEq

/-- Outcomes of the two bounded connect-and-send attempts that one call
of send_message can make: to the primary address and to the fallback. -/
structure SendEnv where
  primary_ok : Bool
  fallback_ok : Bool
deriving DecidableEq

/-- Per-dispatch oracle: the sensor readings returned by
collect_sensor_data, the network outcomes for the (at most one) send the
handler performs, and whether a connect_db attempt succeeds. -/
structure HandleEnv where
  myData : SensorValues
  send : SendEnv
  db_ok : Bool
deriving DecidableEq

/-- The message types whose delivery drives circulation of the token,
tested at token-ring.py lines 317, 348 and 355. -/
def circulating (ty : String) : Bool :=
  ty = "sensor_data" || ty = "continue"

/-- connect_db, lines 64-82: on success the handle is open, on failure
db_conn is set back to None. -/
def connect_db (st : NodeState) (ok : Bool) : NodeState :=
  { st with db_conn := ok }

/-- disconnect_db, lines 304-312: the handle is closed. -/
def disconnect_db (st : NodeState) : NodeState :=
  { st with db_conn := false }

/-- The state change when both send attempts fail for a circulating
message, lines 348-352 and 355-359: enter alone mode, set numpis to 1,
close the database handle. -/
def aloneFallback (st : NodeState) : NodeState :=
  { st with is_alone := true, numpis := 1, db_conn := false }

/-- send_message, token-ring.py lines 314-359. Returns the new node
state together with the list of transmission attempts made, each as the
destination address paired with the wire bytes. The pi_id argument is
the informational target id that the source uses only in log text. -/
def send_message (st : NodeState) (message : JsonData) (msg_type : String)
    (next_host : String) (next_port : Nat) (pi_id : Nat) (env : SendEnv) :
    NodeState × List ((String × Nat) × WireMsg) :=
  if st.is_alone = true ∧ circulating msg_type = true then
    (st, [])
  else
    let wire : WireMsg := ⟨msg_type, message⟩
    if env.primary_ok = true then
      (st, [((next_host, next_port), wire)])
    else if next_host ≠ st.other_host ∨ next_port ≠ st.other_port then
      if env.fallback_ok = true then
        (st, [((next_host, next_port), wire), ((st.other_host, st.other_port), wire)])
      else if circulating msg_type = true then
        (aloneFallback st,
          [((next_host, next_port), wire), ((st.other_host, st.other_port), wire)])
      else
        (st, [((next_host, next_port), wire), ((st.other_host, st.other_port), wire)])
    else if circulating msg_type = true then
      (aloneFallback st, [((next_host, next_port), wire)])
    else
      (st, [((next_host, next_port), wire)])

/-- The record this node appends for itself, line 188. -/
def myRecord (st : NodeState) (env : HandleEnv) : MeasurementRecord :=
  ⟨st.pi_id, env.myData⟩

/-- handle_message, token-ring.py lines 163-302, for an already decoded
message of the given type string carrying the given data field. Unknown
type strings fall through every branch and leave the state unchanged,
exactly as in the source. Returns the new state and the transmission
attempts of the (at most one) send the handler performs. -/
def handle_message (st : NodeState) (ty : String) (data : JsonData)
    (env : HandleEnv) : NodeState × List ((String × Nat) × WireMsg) :=
  if ty = "sensor_data" then
    let st1 := { st with is_alone := false }
    let all_data := extractData data ++ [myRecord st1 env]
    if st1.pi_id = st1.plotter ∧ 1 < st1.numpis then
      let st2 := { st1 with round := st1.round + 1 }
      send_message st2 .null "continue" st2.next_host st2.next_port
        (st2.pi_id % 3 + 1) env.send
    else if 1 < st1.numpis then
      send_message st1 (.list all_data) "sensor_data" st1.next_host st1.next_port
        (st1.pi_id % 3 + 1) env.send
    else
      ({ st1 with is_alone := true }, [])
  else if ty = "kill" then
    if 1 < st.numpis then
      let st1 := { st with numpis := st.numpis - 1 }
      let st2 := { st1 with plotter := if 1 < st1.plotter then st1.plotter - 1 else 3 }
      let st3 := if st2.plotter = 0 then { st2 with plotter := 3 } else st2
      if st3.pi_id = st3.plotter ∧ 1 < st3.numpis then
        (connect_db st3 env.db_ok, [])
      else
        (st3, [])
    else
      ({ st with numpis := 1, is_alone := true, db_conn := false }, [])
  else if ty = "gone" then
    let st1 := if 1 < st.numpis then { st with numpis := st.numpis - 1 } else st
    if st1.numpis ≤ 1 then
      ({ st1 with is_alone := true, db_conn := false }, [])
    else
      let st2 := { st1 with round := st1.round + 1 }
      let r := send_message st2 (.list [myRecord st2 env]) "sensor_data"
        st2.next_host st2.next_port ((st2.pi_id + 1) % 3) env.send
      if r.1.pi_id = r.1.plotter ∧ 1 < r.1.numpis then
        (connect_db r.1 env.db_ok, r.2)
      else
        (r.1, r.2)
  else if ty = "oneless" then
    let st1 := if 1 < st.numpis then { st with numpis := st.numpis - 1 } else st
    if st1.numpis ≤ 1 then
      ({ st1 with is_alone := true, db_conn := false }, [])
    else if st1.pi_id = st1.plotter ∧ 1 < st1.numpis then
      (connect_db st1 env.db_ok, [])
    else
      (st1, [])
  else if ty = "continue" then
    let st1 := { st with is_alone := false }
    let st2 := { st1 with round := st1.round + 1 }
    if 1 < st2.numpis then
      send_message st2 (.list [myRecord st2 env]) "sensor_data"
        st2.next_host st2.next_port ((st2.pi_id + 1) % 3) env.send
    else
      ({ st2 with is_alone := true }, [])
  else if ty = "reconnect" then
    let st1 := { st with is_alone := false, numpis := st.numpis + 1 }
    let st2 := if st1.pi_id = st1.plotter ∧ 1 < st1.numpis then
        connect_db st1 env.db_ok
      else st1
    send_message st2 (.list [myRecord st2 env]) "sensor_data"
      st2.next_host st2.next_port (st2.pi_id % 3 + 1) env.send
  else
    (st, [])

/-- The departure announcements in run on operator interrupt,
token-ring.py lines 498-507: only when other nodes are believed alive,
the plotter-believing node sends kill on both links, any other node
sends gone forward and oneless backward. -/
def shutdown_sends (st : NodeState) (e1 e2 : SendEnv) :
    NodeState × List ((String × Nat) × WireMsg) :=
  if 1 < st.numpis then
    if st.pi_id = st.plotter then
      let r1 := send_message st (.str "Plotter killed") "kill"
        st.next_host st.next_port st.pi_id e1
      let r2 := send_message r1.1 (.str "Plotter killed") "kill"
        st.other_host st.other_port st.pi_id e2
      (r2.1, r1.2 ++ r2.2)
    else
      let r1 := send_message st (.str "Pi killed") "gone"
        st.next_host st.next_port st.pi_id e1
      let r2 := send_message r1.1 (.str "Pi killed") "oneless"
        st.other_host st.other_port st.pi_id e2
      (r2.1, r1.2 ++ r2.2)
  else
    (st, [])

/-- The state built by the constructor, lines 26-60: plotter is 3,
numpis is 3, round 0, not alone, and only node 3 opens the database
handle (db0 says whether that connect succeeds). -/
def initState (pi_id : Nat) (next_host : String) (next_port : Nat)
    (other_host : String) (other_port : Nat) (db0 : Bool) : NodeState :=
  { pi_id := pi_id, next_host := next_host, next_port := next_port,
    other_host := other_host, other_port := other_port,
    plotter := 3, numpis := 3, round := 0, is_alone := false,
    db_conn := if pi_id = 3 then db0 else false }

/-- One dispatched inbound message together with its oracle. -/
structure Step where
  ty : String
  data : JsonData
  env : HandleEnv
deriving DecidableEq

/-- Sequential processing of a list of inbound messages. -/
def runTrace : NodeState → List Step → NodeState
  | st, [] => st
  | st, s :: rest => runTrace (handle_message st s.ty s.data s.env).1 rest

/-- A state is reachable when some constructor arguments and some
sequence of processed messages produce it. -/
def Reachable (st : NodeState) : Prop :=
  ∃ pi_id next_host next_port other_host other_port db0 trace,
    runTrace (initState pi_id next_host next_port other_host other_port db0) trace = st

/-- Number of reconnect messages in a trace. -/
def countReconnects (tr : List Step) : Nat :=
  (tr.filter (fun s => s.ty = "reconnect")).length

/-- A data field that is neither a list nor a dict wrapping a list under
a data key: exactly the shapes the sensor_data handler replaces by the
empty list. -/
def notListLike : JsonData → Bool
  | .list _ => false
  | .dictData (.list _) => false
  | _ => true

/-- The combined membership and alone-mode invariant of a node state. -/
def NodeInv (st : NodeState) : Prop :=
  1 ≤ st.numpis ∧ (st.is_alone = true → st.numpis = 1)

theorem send_message_state (st : NodeState) (m : JsonData) (ty : String)
    (h : String) (p : Nat) (pid : Nat) (e : SendEnv) :
    (send_message st m ty h p pid e).1 = st ∨
      (send_message st m ty h p pid e).1 = aloneFallback st := by
  unfold send_message
  split_ifs <;> simp

theorem send_message_round (st : NodeState) (m : JsonData) (ty : String)
    (h : String) (p : Nat) (pid : Nat) (e : SendEnv) :
    (send_message st m ty h p pid e).1.round = st.round := by
  rcases send_message_state st m ty h p pid e with hc | hc <;> rw [hc] <;> rfl

theorem send_message_pi_id (st : NodeState) (m : JsonData) (ty : String)
    (h : String) (p : Nat) (pid : Nat) (e : SendEnv) :
    (send_message st m ty h p pid e).1.pi_id = st.pi_id := by
  rcases send_message_state st m ty h p pid e with hc | hc <;> rw [hc] <;> rfl

theorem send_message_plotter (st : NodeState) (m : JsonData) (ty : String)
    (h : String) (p : Nat) (pid : Nat) (e : SendEnv) :
    (send_message st m ty h p pid e).1.plotter = st.plotter := by
  rcases send_message_state st m ty h p pid e with hc | hc <;> rw [hc] <;> rfl

theorem send_message_numpis (st : NodeState) (m : JsonData) (ty : String)
    (h : String) (p : Nat) (pid : Nat) (e : SendEnv) :
    (send_message st m ty h p pid e).1.numpis = st.numpis ∨
      (send_message st m ty h p pid e).1.numpis = 1 := by
  rcases send_message_state st m ty h p pid e with hc | hc <;> rw [hc]
  · exact Or.inl rfl
  · exact Or.inr rfl

theorem send_message_inv (st : NodeState) (m : JsonData) (ty : String)
    (h : String) (p : Nat) (pid : Nat) (e : SendEnv) (hin : NodeInv st) :
    NodeInv (send_message st m ty h p pid e).1 := by
  rcases send_message_state st m ty h p pid e with hc | hc <;> rw [hc]
  · exact hin
  · exact ⟨Nat.le_refl 1, fun _ => rfl⟩

theorem connect_db_inv (st : NodeState) (ok : Bool) (h : NodeInv st) :
    NodeInv (connect_db st ok) := h

set_option maxHeartbeats 2000000 in
theorem handle_message_inv (st : NodeState) (ty : String) (data : JsonData)
    (env : HandleEnv) (hin : NodeInv st) :
    NodeInv (handle_message st ty data env).1 := by
  obtain ⟨hge, himp⟩ := hin
  unfold handle_message
  dsimp only
  split_ifs <;>
    (first
      | exact ⟨hge, himp⟩
      | refine connect_db_inv _ _ (send_message_inv _ _ _ _ _ _ _ ⟨?_, ?_⟩)
      | refine connect_db_inv _ _ ⟨?_, ?_⟩
      | refine send_message_inv _ _ _ _ _ _ _ ⟨?_, ?_⟩
      | refine ⟨?_, ?_⟩) <;>
    (try intro hAl) <;> (try simp_all [connect_db]) <;> (try omega)

theorem runTrace_inv (tr : List Step) (st : NodeState) (hin : NodeInv st) :
    NodeInv (runTrace st tr) := by
  induction tr generalizing st with
  | nil => exact hin
  | cons s rest ih => exact ih _ (handle_message_inv _ _ _ _ hin)

theorem initState_inv (pi_id : Nat) (nh : String) (np : Nat) (oh : String)
    (op : Nat) (db0 : Bool) : NodeInv (initState pi_id nh np oh op db0) :=
  ⟨by simp [initState], fun h => by simp [initState] at h⟩

theorem reachable_inv (st : NodeState) (h : Reachable st) : NodeInv st := by
  obtain ⟨a, b, c, d, e, f, tr, htr⟩ := h
  exact htr ▸ runTrace_inv tr _ (initState_inv a b c d e f)

theorem send_numpis_le {st : NodeState} {m : JsonData} {ty : String}
    {h : String} {p : Nat} {pid : Nat} {e : SendEnv} (hge : 1 ≤ st.numpis) :
    (send_message st m ty h p pid e).1.numpis ≤ st.numpis := by
  rcases send_message_state st m ty h p pid e with hc | hc <;> rw [hc]
  exact hge

set_option maxHeartbeats 2000000 in
theorem handle_message_numpis_le (st : NodeState) (ty : String)
    (data : JsonData) (env : HandleEnv) (hge : 1 ≤ st.numpis) :
    (handle_message st ty data env).1.numpis ≤
      st.numpis + (if ty = "reconnect" then 1 else 0) := by
  unfold handle_message
  dsimp only
  split_ifs <;>
    (try simp only [connect_db]) <;>
    (first
      | exact le_trans (send_numpis_le (by (try dsimp only); omega)) (by (try dsimp only); omega)
      | omega
      | simp_all)

theorem countReconnects_cons (s : Step) (rest : List Step) :
    countReconnects (s :: rest) =
      (if s.ty = "reconnect" then 1 else 0) + countReconnects rest := by
  by_cases h : s.ty = "reconnect" <;> simp [countReconnects, h] <;> omega

theorem runTrace_numpis_bound (tr : List Step) (st : NodeState)
    (hin : NodeInv st) :
    (runTrace st tr).numpis ≤ st.numpis + countReconnects tr := by
  induction tr generalizing st with
  | nil => simp [runTrace, countReconnects]
  | cons s rest ih =>
      have h1 := handle_message_numpis_le st s.ty s.data s.env hin.1
      have h2 := ih _ (handle_message_inv st s.ty s.data s.env hin)
      rw [countReconnects_cons]
      have h3 : runTrace st (s :: rest) =
          runTrace (handle_message st s.ty s.data s.env).1 rest := rfl
      rw [h3]
      by_cases h : s.ty = "reconnect"
      · rw [if_pos h] at h1 ⊢
        omega
      · rw [if_neg h] at h1 ⊢
        omega

theorem handle_message_round_mono (st : NodeState) (ty : String)
    (data : JsonData) (env : HandleEnv) :
    st.round ≤ (handle_message st ty data env).1.round := by
  unfold handle_message
  dsimp only
  split_ifs <;>
    (try simp only [connect_db]) <;>
    (first
      | (rw [send_message_round]; (try dsimp only); (try omega))
      | ((try dsimp only); omega))

theorem runTrace_round_mono (tr : List Step) (st : NodeState) :
    st.round ≤ (runTrace st tr).round := by
  induction tr generalizing st with
  | nil => exact Nat.le_refl _
  | cons s rest ih =>
      exact le_trans (handle_message_round_mono st s.ty s.data s.env) (ih _)

/-- All-zero sensor readings, the default record of collect_sensor_data. -/
def zeroValues : SensorValues := ⟨0, 0, 0, 0, 0⟩

/-- A dispatch oracle where every network and database operation succeeds. -/
def okEnv : HandleEnv := ⟨zeroValues, ⟨true, true⟩, true⟩

/-- An inbound kill announcement with the all-success oracle. -/
def killStep : Step := ⟨"kill", .str "Plotter killed", okEnv⟩

/-- An inbound gone announcement with the all-success oracle. -/
def goneStep : Step := ⟨"gone", .str "Pi killed", okEnv⟩

/-- An inbound reconnect announcement with the all-success oracle. -/
def reconnectStep : Step := ⟨"reconnect", .null, okEnv⟩

/-- Node 1 as constructed on startup, with example neighbor addresses. -/
def node1 : NodeState := initState 1 "10.0.0.2" 5002 "10.0.0.3" 5003 false

/-- Node 1 after processing two successive kill announcements: the second
one lowers the membership belief from 2 to 1. -/
def twoKillsState : NodeState := runTrace node1 [killStep, killStep]

/-- Node 1 after processing two successive gone announcements. -/
def twoGonesState : NodeState := runTrace node1 [goneStep, goneStep]

/-- Node 1 after processing one reconnect announcement. -/
def reconnectState : NodeState := runTrace node1 [reconnectStep]

/-- C1: the claimed equivalence fails in the reachable state obtained by
processing two kill announcements from the initial state: the second kill
lowers numpis from 2 to 1, yet the handler leaves is_alone false, because
only the branch for numpis already at 1 sets the flag. -/
theorem kill_to_one_leaves_alone_false :
    Reachable twoKillsState ∧ twoKillsState.numpis = 1 ∧
      twoKillsState.is_alone = false :=
  ⟨⟨1, "10.0.0.2", 5002, "10.0.0.3", 5003, false, [killStep, killStep], rfl⟩,
    rfl, rfl⟩

/-- C1 (amended): in every reachable state the implication from the alone
flag to a membership belief of 1 does hold: whenever is_alone is true,
numpis equals 1. The converse direction of the claimed equivalence is
refuted by the counterexample above. -/
theorem alone_implies_numpis_one (st : NodeState) (hr : Reachable st)
    (ha : st.is_alone = true) : st.numpis = 1 :=
  (reachable_inv st hr).2 ha

/-- Witness for the amended C1 theorem at the reachable state reached by
two gone announcements, where the node is alone. -/
theorem alone_implies_numpis_one_witness :
    twoGonesState.is_alone = true ∧ twoGonesState.numpis = 1 :=
  ⟨rfl, alone_implies_numpis_one twoGonesState
    ⟨1, "10.0.0.2", 5002, "10.0.0.3", 5003, false, [goneStep, goneStep], rfl⟩
    rfl⟩

/-- C2: the claimed upper bound fails: a reconnect announcement increments
the membership belief without any cap, so the initial state followed by
one reconnect is a reachable state whose numpis is 4, above N = 3. -/
theorem reconnect_exceeds_ring_size :
    Reachable reconnectState ∧ reconnectState.numpis = 4 :=
  ⟨⟨1, "10.0.0.2", 5002, "10.0.0.3", 5003, false, [reconnectStep], rfl⟩, rfl⟩

/-- C2 (amended): along every trace from an initial state the membership
belief stays at least 1, and it is bounded by 3 plus the number of
reconnect messages processed; the claimed constant bound of N = 3 holds
only for traces without reconnects. -/
theorem numpis_bounds (pi_id : Nat) (nh : String) (np : Nat) (oh : String)
    (op : Nat) (db0 : Bool) (tr : List Step) :
    1 ≤ (runTrace (initState pi_id nh np oh op db0) tr).numpis ∧
      (runTrace (initState pi_id nh np oh op db0) tr).numpis ≤
        3 + countReconnects tr :=
  ⟨(runTrace_inv tr _ (initState_inv pi_id nh np oh op db0)).1,
    runTrace_numpis_bound tr _ (initState_inv pi_id nh np oh op db0)⟩

/-- C6: the round counter is non-decreasing across any sequence of
processed messages: no handler decrements or resets it. -/
theorem round_nondecreasing (st : NodeState) (tr : List Step) :
    st.round ≤ (runTrace st tr).round :=
  runTrace_round_mono tr st

/-- Node 3 as constructed on startup (the initial plotter belief). -/
def node3 : NodeState := initState 3 "10.0.0.1" 5001 "10.0.0.2" 5002 true

/-- Node 2 as constructed on startup. -/
def node2 : NodeState := initState 2 "10.0.0.3" 5003 "10.0.0.1" 5001 false

/-- C3 (amended): processing a kill message reassigns the plotter belief
by the wrap rule (decrement, wrapping to N = 3 when the belief was at 1)
only when more than one member is believed alive; when the membership
belief is already 1, the plotter belief is left unchanged, because the
handler takes the alone branch instead. -/
theorem kill_plotter_reassign (st : NodeState) (data : JsonData)
    (env : HandleEnv) :
    (1 < st.numpis →
        (handle_message st "kill" data env).1.plotter =
          if 1 < st.plotter then st.plotter - 1 else 3) ∧
    (st.numpis ≤ 1 →
        (handle_message st "kill" data env).1.plotter = st.plotter) := by
  constructor <;> intro h <;>
    unfold handle_message <;>
    rw [if_neg (by decide), if_pos rfl] <;>
    dsimp only <;>
    split_ifs <;>
    (try simp only [connect_db]) <;>
    (try dsimp only) <;>
    omega

/-- Witness for the amended C3 theorem: at the fresh node 1 state a kill
moves the plotter belief from 3 to 2, and at the reachable state with
membership belief 1 a kill leaves the plotter belief where it was. -/
theorem kill_plotter_reassign_witness :
    (handle_message node1 "kill" (.str "Plotter killed") okEnv).1.plotter = 2 ∧
    (handle_message twoGonesState "kill" (.str "Plotter killed") okEnv).1.plotter =
      twoGonesState.plotter :=
  ⟨((kill_plotter_reassign node1 (.str "Plotter killed") okEnv).1
      (by decide)).trans (by decide),
   (kill_plotter_reassign twoGonesState (.str "Plotter killed") okEnv).2
      (by decide)⟩

/-- C3: counterexample to the claim that the wrap rule applies with no
precondition on the membership belief: in the reachable state after two
kill announcements (plotter belief 1, membership belief 1), a further
kill leaves the plotter belief at 1, while the claimed rule demands 3. -/
theorem kill_when_alone_keeps_plotter :
    Reachable twoKillsState ∧ twoKillsState.plotter = 1 ∧
      (handle_message twoKillsState "kill" (.str "Plotter killed") okEnv).1.plotter = 1 ∧
      (if 1 < twoKillsState.plotter then twoKillsState.plotter - 1 else 3) = 3 :=
  ⟨⟨1, "10.0.0.2", 5002, "10.0.0.3", 5003, false, [killStep, killStep], rfl⟩,
    rfl, rfl, rfl⟩

/-- C4: when both transmission attempts of one send fail, a circulating
message type (sensor_data, continue) drives the node into alone mode with
membership belief 1 and a closed persistence handle, while the four
announcement types (kill, gone, oneless, reconnect) leave the entire node
state unchanged: the failure is logged only and nothing terminates. -/
theorem send_both_fail_effect (st : NodeState) (m : JsonData) (ty : String)
    (nh : String) (np : Nat) (pid : Nat) :
    ((ty = "sensor_data" ∨ ty = "continue") → st.is_alone = false →
        (send_message st m ty nh np pid ⟨false, false⟩).1 = aloneFallback st) ∧
    ((ty = "kill" ∨ ty = "gone" ∨ ty = "oneless" ∨ ty = "reconnect") →
        (send_message st m ty nh np pid ⟨false, false⟩).1 = st) := by
  constructor
  · intro ht halone
    have hc : circulating ty = true := by
      rcases ht with h | h <;> simp [circulating, h]
    unfold send_message
    rw [if_neg (by simp [halone])]
    dsimp only
    rw [if_neg (by simp)]
    split_ifs <;> simp_all
  · intro ht
    have hc : circulating ty = false := by
      rcases ht with h | h | h | h <;> simp [circulating, h]
    unfold send_message
    rw [if_neg (by simp [hc])]
    dsimp only
    rw [if_neg (by simp)]
    split_ifs <;> simp_all

/-- Witness for the C4 theorem at the fresh node 1 state, for one
circulating and one announcement message type. -/
theorem send_both_fail_effect_witness :
    (send_message node1 .null "sensor_data" "10.0.0.2" 5002 2 ⟨false, false⟩).1 =
        aloneFallback node1 ∧
    (send_message node1 .null "gone" "10.0.0.2" 5002 2 ⟨false, false⟩).1 = node1 :=
  ⟨(send_both_fail_effect node1 .null "sensor_data" "10.0.0.2" 5002 2).1
      (Or.inl rfl) rfl,
   (send_both_fail_effect node1 .null "gone" "10.0.0.2" 5002 2).2
      (Or.inr (Or.inl rfl))⟩

/-- C5: when the primary attempt of a send fails, exactly one further
attempt is made, to the fallback address, when the fallback address
differs from the primary in host or port; when the two addresses
coincide, no fallback attempt is made. The attempt list is determined
exactly, so never zero and never more than one fallback attempt occurs. -/
theorem send_failover_attempts (st : NodeState) (m : JsonData) (ty : String)
    (nh : String) (np : Nat) (pid : Nat) (e : SendEnv)
    (hgo : ¬(st.is_alone = true ∧ circulating ty = true))
    (hfail : e.primary_ok = false) :
    (send_message st m ty nh np pid e).2 =
      if nh ≠ st.other_host ∨ np ≠ st.other_port then
        [((nh, np), ⟨ty, m⟩), ((st.other_host, st.other_port), ⟨ty, m⟩)]
      else
        [((nh, np), ⟨ty, m⟩)] := by
  unfold send_message
  rw [if_neg hgo]
  dsimp only
  rw [if_neg (by simp [hfail])]
  split_ifs <;> rfl

/-- Witness for the C5 theorem: at the fresh node 1 state with a failing
primary and distinct fallback address, the attempt list holds exactly the
primary attempt followed by one fallback attempt. -/
theorem send_failover_attempts_witness :
    (send_message node1 .null "kill" "10.0.0.2" 5002 2 ⟨false, true⟩).2 =
      [(("10.0.0.2", 5002), ⟨"kill", .null⟩),
       (("10.0.0.3", 5003), ⟨"kill", .null⟩)] :=
  (send_failover_attempts node1 .null "kill" "10.0.0.2" 5002 2 ⟨false, true⟩
      (by decide) rfl).trans (by decide)

/-- C7: while the alone flag is set, a send of a circulating message type
(sensor_data or continue) makes no transmission attempt and returns the
state unchanged, so an alone node originates no circulation message. -/
theorem alone_suppresses_circulation (st : NodeState) (m : JsonData)
    (ty : String) (nh : String) (np : Nat) (pid : Nat) (e : SendEnv)
    (halone : st.is_alone = true) (hcirc : circulating ty = true) :
    send_message st m ty nh np pid e = (st, []) := by
  unfold send_message
  rw [if_pos ⟨halone, hcirc⟩]

/-- Witness for the C7 theorem at the reachable alone state reached by
two gone announcements. -/
theorem alone_suppresses_circulation_witness :
    send_message twoGonesState .null "sensor_data" "10.0.0.2" 5002 2 ⟨true, true⟩ =
      (twoGonesState, []) :=
  alone_suppresses_circulation twoGonesState .null "sensor_data" "10.0.0.2" 5002 2
    ⟨true, true⟩ rfl rfl

/-- C8 (amended): when the node believes other members are alive, the
operator-shutdown announcements depend only on the plotter belief: a node
whose own id equals its plotter belief sends kill on both links, any
other node sends gone on the primary link and oneless on the fallback
link; when the membership belief is 1, no announcement is sent at all
(refuting the unconditional form of the claim). -/
theorem shutdown_choice (st : NodeState) (h : 1 < st.numpis) :
    (st.pi_id = st.plotter →
      (shutdown_sends st ⟨true, true⟩ ⟨true, true⟩).2 =
        [((st.next_host, st.next_port), ⟨"kill", .str "Plotter killed"⟩),
         ((st.other_host, st.other_port), ⟨"kill", .str "Plotter killed"⟩)]) ∧
    (st.pi_id ≠ st.plotter →
      (shutdown_sends st ⟨true, true⟩ ⟨true, true⟩).2 =
        [((st.next_host, st.next_port), ⟨"gone", .str "Pi killed"⟩),
         ((st.other_host, st.other_port), ⟨"oneless", .str "Pi killed"⟩)]) := by
  constructor <;> intro hp <;>
    simp [shutdown_sends, send_message, circulating, h, hp]

/-- Witness for the amended C8 theorem: node 3 (which believes itself
plotter) announces kill on both links, node 1 announces gone and
oneless. -/
theorem shutdown_choice_witness :
    (shutdown_sends node3 ⟨true, true⟩ ⟨true, true⟩).2 =
        [(("10.0.0.1", 5001), ⟨"kill", .str "Plotter killed"⟩),
         (("10.0.0.2", 5002), ⟨"kill", .str "Plotter killed"⟩)] ∧
    (shutdown_sends node1 ⟨true, true⟩ ⟨true, true⟩).2 =
        [(("10.0.0.2", 5002), ⟨"gone", .str "Pi killed"⟩),
         (("10.0.0.3", 5003), ⟨"oneless", .str "Pi killed"⟩)] :=
  ⟨(shutdown_choice node3 (by decide)).1 rfl,
   (shutdown_choice node1 (by decide)).2 (by decide)⟩

/-- C8: counterexample to the unconditional claim: in the reachable state
after two kill announcements the node believes itself plotter, yet the
shutdown path sends nothing, because the membership belief is 1. -/
theorem shutdown_alone_plotter_sends_nothing :
    Reachable twoKillsState ∧ twoKillsState.pi_id = twoKillsState.plotter ∧
      (shutdown_sends twoKillsState ⟨true, true⟩ ⟨true, true⟩).2 = [] :=
  ⟨⟨1, "10.0.0.2", 5002, "10.0.0.3", 5003, false, [killStep, killStep], rfl⟩,
    rfl, rfl⟩

/-- C9: the target id argument of send_message influences neither the
state transition, nor the addresses attempted, nor the transmitted wire
bytes: two runs differing only in that argument are equal. -/
theorem send_ignores_target_id (st : NodeState) (m : JsonData) (ty : String)
    (nh : String) (np : Nat) (pid1 pid2 : Nat) (e : SendEnv) :
    send_message st m ty nh np pid1 e = send_message st m ty nh np pid2 e :=
  rfl

/-- Every data shape other than a list, or a data-keyed dict holding a
list, is replaced by the empty payload by the sensor_data handler. -/
theorem notListLike_extract (d : JsonData) (h : notListLike d = true) :
    extractData d = [] := by
  cases d with
  | null => rfl
  | str s => rfl
  | list xs => simp [notListLike] at h
  | dictData inner => cases inner <;> simp_all [notListLike, extractData]
  | dictOther => rfl

/-- C10: a sensor_data message whose data field is not a list (and not a
dict wrapping a list) is not dropped: the handler substitutes the empty
list, appends the record of this node, and proceeds normally. A
non-plotter node forwards a sensor_data message whose payload is exactly
the own record; the plotter node increments its round as usual. -/
theorem bad_payload_keeps_own_record (st : NodeState) (d : JsonData)
    (env : HandleEnv) (hbad : notListLike d = true) (hmulti : 1 < st.numpis) :
    (st.pi_id ≠ st.plotter → env.send.primary_ok = true →
        handle_message st "sensor_data" d env =
          ({ st with is_alone := false },
            [((st.next_host, st.next_port),
              ⟨"sensor_data", .list [⟨st.pi_id, env.myData⟩]⟩)])) ∧
    (st.pi_id = st.plotter →
        (handle_message st "sensor_data" d env).1.round = st.round + 1) := by
  have hext := notListLike_extract d hbad
  constructor
  · intro hp hok
    simp [handle_message, send_message, circulating, myRecord, hext, hok, hmulti, hp]
  · intro hp
    unfold handle_message
    rw [if_pos rfl]
    dsimp only
    rw [if_pos ⟨hp, hmulti⟩]
    rw [send_message_round]

/-- Witness for the C10 theorem: node 2 receiving a sensor_data message
whose data field is a dict without a data key forwards a payload holding
exactly its own record. -/
theorem bad_payload_keeps_own_record_witness :
    handle_message node2 "sensor_data" .dictOther okEnv =
      ({ node2 with is_alone := false },
        [(("10.0.0.3", 5003), ⟨"sensor_data", .list [⟨2, zeroValues⟩]⟩)]) :=
  (bad_payload_keeps_own_record node2 .dictOther okEnv rfl (by decide)).1
    (by decide) rfl
